import Mathlib

/-!
# Verification of the Jupyter console widget coordination logic

Shallow embedding of `src/src/notebook/console/widget.ts` (the `ConsoleWidget`
class and the `Private` namespace).  The widget's mutable fields become a Lean
state structure; each event handler becomes a state-transition function; the
asynchronous continuations attached to kernel replies become functions taking
the resolved reply value (and the sequence number captured at issue time) as
arguments, mirroring the single-threaded run-to-completion event model of the
source.
-/

namespace Console

/-! ## Data model -/

/-- Reply status of kernel completion / inspection requests. -/
inductive Status where
  | ok
  | error
deriving DecidableEq, Repr

/-- A text-change event from `jupyter-js-notebook`'s cell editor
(`ITextChange`): the full new value, the cursor's line and its character
offset `ch`.  Screen geometry (`coords`, `chHeight`) is not modelled. -/
structure ITextChange where
  newValue : String
  line : Nat
  ch : Nat
deriving DecidableEq, Repr

/-- A completion-request event (`ICompletionRequest`): the current editor
value, the cursor's line and character offset. -/
structure ICompletionRequest where
  currentValue : String
  line : Nat
  ch : Nat
deriving DecidableEq, Repr

/-- A kernel `complete` reply. -/
structure ICompleteReply where
  status : Status
  «matches» : List String
  cursor_start : Nat
  cursor_end : Nat
deriving DecidableEq, Repr

/-- A MIME bundle as touched by `Private.processInspectReply`.  The function
reads and writes only the two keys `application/vnd.jupyter.console-text`
(field `consoleText`) and `text/plain` (field `textPlain`); every other entry
passes through untouched and is kept in `rest`.  A JavaScript key holding
`undefined` is identified with an absent key (`none`). -/
structure MimeBundle where
  consoleText : Option String := none
  textPlain : Option String := none
  rest : List (String × String) := []
deriving DecidableEq, Repr

/-- A kernel `inspect` reply. -/
structure IInspectReply where
  status : Status
  found : Bool
  data : MimeBundle
deriving DecidableEq, Repr

/-- Replacement range stored in the completion model (`model.cursor`). -/
structure CursorSpan where
  start : Nat
  stop : Nat
deriving DecidableEq, Repr

/-- The completion model's state (`this._completion.model`), as the widget
code reads and writes it: `options`, `original`, `cursor`, `current`, and
the disposal flag checked by the completion continuation. -/
structure CompletionModel where
  options : Option (List String) := none
  original : Option ICompletionRequest := none
  cursor : Option CursorSpan := none
  current : Option ITextChange := none
  isDisposed : Bool := false
deriving DecidableEq, Repr

/-- One cell in the console layout: the banner (`RawCellWidget`) or a code
cell (`CodeCellWidget`).  `readOnly`, `trusted`, `source` and `mimetype`
are the model attributes the widget code reads or writes. -/
structure Cell where
  readOnly : Bool := false
  trusted : Bool := false
  source : String := ""
  mimetype : String := "text/x-ipython"
  isBanner : Bool := false
deriving DecidableEq, Repr

/-- The persisted record a cell contributes to `serialize()`
(`widget.model.toJSON()`), restricted to the modelled attributes. -/
structure CellRecord where
  source : String
  trusted : Bool
deriving DecidableEq, Repr

/-- `widget.model.toJSON()`. -/
def Cell.toJSON (c : Cell) : CellRecord :=
  { source := c.source, trusted := c.trusted }

/-- The `ConsoleWidget`'s state: the panel layout's children (`cells`, index
0 is the banner), the history buffer's stored lines, the completion model,
the tooltip visibility and content, the two pending-request counters, the
current mimetype and the widget's disposal flag. -/
structure ConsoleState where
  cells : List Cell := []
  history : List String := []
  model : CompletionModel := {}
  tooltipVisible : Bool := false
  tooltipContent : Option MimeBundle := none
  pendingComplete : Nat := 0
  pendingInspect : Nat := 0
  mimetype : String := "text/x-ipython"
  isDisposed : Bool := false
deriving DecidableEq, Repr

/-! ## Helper functions over the layout -/

/-- Apply `f` to the last element of a list (the widget's `prompt` getter
returns the last layout child; handlers mutate it in place). -/
def modifyLast (f : Cell → Cell) : List Cell → List Cell
  | [] => []
  | [c] => [f c]
  | c :: d :: rest => c :: modifyLast f (d :: rest)

/-- Source text of the last cell (`this.prompt.model.source`); `""` when the
layout is empty (the source would fault there; no reachable state is empty). -/
def lastSource (cells : List Cell) : String :=
  (cells.getLast?).elim "" (fun c => c.source)

namespace Private

/-- JavaScript truthiness of a possibly-absent string value:
`undefined` and `""` are falsy. -/
def jsTruthy : Option String → Bool
  | none => false
  | some s => !s.isEmpty

/-- JavaScript `a || b` over possibly-absent string values. -/
def jsOr (a b : Option String) : Option String :=
  if jsTruthy a then a else b

/-- `Private.processInspectReply`:
`bundle[consoleMime] = bundle[consoleMime] || bundle[textMime]; return bundle;`.
A key assigned `undefined` (both entries absent) is identified with an
absent key. -/
def processInspectReply (bundle : MimeBundle) : MimeBundle :=
  { bundle with consoleText := jsOr bundle.consoleText bundle.textPlain }

end Private

namespace ConsoleWidget

/-- The fixed banner cell created by the constructor
(`createBanner()` + `banner.readOnly = true`). -/
def bannerCell : Cell :=
  { readOnly := true, isBanner := true }

/-- A fresh prompt created by `createPrompt` inside `newPrompt()`:
a new `CodeCellModel` (editable), tagged with the current mimetype. -/
def freshPrompt (mimetype : String) : Cell :=
  { readOnly := false, mimetype := mimetype }

/-- `ConsoleWidget.newPrompt()`: make the previous prompt (the last layout
child, if any) read-only, then append a fresh prompt carrying
`this._mimetype`.  (Signal detachment on the old editor has no observable
effect on the modelled state.) -/
def newPrompt (s : ConsoleState) : ConsoleState :=
  { s with cells :=
      modifyLast (fun c => { c with readOnly := true }) s.cells
        ++ [freshPrompt s.mimetype] }

/-- The dispose loop body of `ConsoleWidget.clear()`:
`for (let i = 0; i < layout.childCount() - 2; i++) { layout.childAt(1).dispose(); }`.
Disposing a phosphor widget removes it from its parent layout, so
`childCount()` shrinks by one per iteration while the loop bound is
re-evaluated against the shrunken count. -/
def clearLoop (cells : List Cell) (i : Nat) : List Cell :=
  if i < cells.length - 2 then clearLoop (cells.eraseIdx 1) (i + 1) else cells
termination_by cells.length
decreasing_by
  have hlen : 1 < cells.length := by omega
  have h1 := List.length_eraseIdx_add_one hlen
  omega

/-- `ConsoleWidget.clear()`. -/
def clear (s : ConsoleState) : ConsoleState :=
  newPrompt { s with cells := clearLoop s.cells 0 }

/-- `ConsoleWidget.serialize()`: collect `childAt(i).model.toJSON()` for
`i = 1 .. childCount()-1`. -/
def serialize (s : ConsoleState) : List CellRecord :=
  (s.cells.drop 1).map Cell.toJSON

/-- `ConsoleWidget.execute()`: mark the prompt trusted, push its source to
the history, send it to the kernel, and on either outcome of the returned
promise (`then(() => this.newPrompt(), () => this.newPrompt())`) make a new
prompt.  `outcome` is the backend's resolution (`true` = success). -/
def execute (s : ConsoleState) (outcome : Bool) : ConsoleState :=
  let s1 : ConsoleState :=
    { s with cells := modifyLast (fun c => { c with trusted := true }) s.cells,
             history := s.history ++ [lastSource s.cells] }
  match outcome with
  | true => newPrompt s1
  | false => newPrompt s1

/-- The state after the `ConsoleWidget` constructor: the banner is added
read-only, then `newPrompt()` runs.  (The asynchronous `initialize()` only
fills in banner text and mimetype later.) -/
def initialState : ConsoleState :=
  newPrompt { cells := [bannerCell] }

/-- `ConsoleWidget.dispose()`: bail if already disposed; otherwise dispose
the tooltip, history and completion (hiding the tooltip and disposing the
completion model) and mark the widget disposed. -/
def dispose (s : ConsoleState) : ConsoleState :=
  if s.isDisposed then s
  else
    { s with isDisposed := true,
             tooltipVisible := false,
             model := { s.model with isDisposed := true } }

/-! ## Text-change, completion and introspection handling -/

/-- The lines of the editor value, `value.split('\n')`, computed over the
character list (`"".split('\n')` is `[""]`, as in JavaScript). -/
def splitLines (s : String) : List String :=
  (s.data.splitOn '\n').map (fun l => String.mk l)

/-- The line the handlers work on:
`change.newValue.split('\n')[change.line]` (missing lines modelled as `""`;
the theorems restrict to in-range line indices, where the source is total). -/
def lineOf (newValue : String) (line : Nat) : String :=
  (splitLines newValue).getD line ""

/-- JavaScript `line[ch - 1]`: the character before the cursor; `none` when
`ch = 0` (JavaScript index `-1` reads `undefined`) or when `ch - 1` is past
the end of the line. -/
def charBefore? (line : String) (ch : Nat) : Option Char :=
  if ch = 0 then none else line.data.get? (ch - 1)

/-- JavaScript `c.match(/\S/)` over the ASCII whitespace class: `true` when
`c` is not a whitespace character. -/
def jsNonSpace (c : Char) : Bool :=
  !(c == ' ' || c == '\t' || c == '\n' || c == '\r' || c == '\x0b' || c == '\x0c')

/-- `ConsoleWidget.onTextChange`: if the character entered before the cursor
exists and is non-whitespace, refresh `model.current` when a completion is
active (`model.original` set) and, for a non-empty new value, call
`updateTooltip` (which issues an inspect request, incrementing
`_pendingInspect`); otherwise hide the tooltip, null out `options`,
`original` and `cursor`, and return.  The returned flag records whether an
inspect request was issued. -/
def onTextChange (s : ConsoleState) (change : ITextChange) :
    ConsoleState × Bool :=
  let line := lineOf change.newValue change.line
  if (charBefore? line change.ch).any jsNonSpace then
    let s1 :=
      if s.model.original.isSome then
        { s with model := { s.model with current := some change } }
      else s
    if change.newValue.isEmpty then (s1, false)
    else ({ s1 with pendingInspect := s1.pendingInspect + 1 }, true)
  else
    ({ s with tooltipVisible := false,
              model := { s.model with options := none, original := none,
                                      cursor := none } }, false)

/-- Issuing the inspect request inside `ConsoleWidget.updateTooltip`:
`let pendingInspect = ++this._pendingInspect;` — returns the updated state
and the sequence number captured by the continuation. -/
def issueInspect (s : ConsoleState) : ConsoleState × Nat :=
  ({ s with pendingInspect := s.pendingInspect + 1 }, s.pendingInspect + 1)

/-- `ConsoleWidget.showTooltip` restricted to the modelled state: record the
rendered bundle and show the tooltip (screen geometry is not modelled). -/
def showTooltip (s : ConsoleState) (bundle : MimeBundle) : ConsoleState :=
  { s with tooltipContent := some bundle, tooltipVisible := true }

/-- The continuation `ConsoleWidget.updateTooltip` attaches to the kernel
`inspect` promise; `captured` is the `++this._pendingInspect` value recorded
at issue time.  It bails if the widget is disposed, if a newer inspect
request has been issued, or on a failed or negative reply; otherwise it
shows the processed bundle. -/
def onInspectReply (s : ConsoleState) (captured : Nat)
    (value : IInspectReply) : ConsoleState :=
  if s.isDisposed then s
  else if captured ≠ s.pendingInspect then s
  else if value.status ≠ Status.ok ∨ value.found = false then s
  else showTooltip s (Private.processInspectReply value.data)

/-- Issuing the kernel request inside `ConsoleWidget.onCompletionRequest`:
`let pendingComplete = ++this._pendingComplete;`. -/
def issueComplete (s : ConsoleState) : ConsoleState × Nat :=
  ({ s with pendingComplete := s.pendingComplete + 1 }, s.pendingComplete + 1)

/-- The two chained continuations `ConsoleWidget.onCompletionRequest`
attaches to the kernel `complete` promise.  The first updates `options` and
`cursor` after the disposal, sequence-number and status checks; the second
(`.then(() => { model.original = change; })`) is chained after the first and
runs whatever branch the first took. -/
def onCompleteReply (s : ConsoleState) (captured : Nat)
    (change : ICompletionRequest) (value : ICompleteReply) : ConsoleState :=
  let s1 :=
    if s.model.isDisposed then s
    else if captured ≠ s.pendingComplete then s
    else if value.status ≠ Status.ok then s
    else
      { s with model := { s.model with
          options := some value.«matches»,
          cursor := some { start := value.cursor_start,
                           stop := value.cursor_end } } }
  { s1 with model := { s1.model with original := some change } }

/-! ## Edge navigation -/

/-- The history operation a console edge event triggers. -/
inductive HistoryOp where
  | back
  | forward
deriving DecidableEq, Repr

/-- Edge location reported by the cell editor. -/
inductive EdgeLocation where
  | top
  | bottom
deriving DecidableEq, Repr

/-- The live prompt's editor document: its content and the cursor offset
(`doc.setCursor(doc.posFromIndex(i))`). -/
structure EditorDoc where
  content : String
  cursor : Nat
deriving DecidableEq, Repr

/-- Which history call `ConsoleWidget.onEdgeRequest` makes:
`'top'` → `this._history.back()`, otherwise `this._history.forward()`. -/
def historyCallOf : EdgeLocation → HistoryOp
  | EdgeLocation.top => HistoryOp.back
  | EdgeLocation.bottom => HistoryOp.forward

/-- The continuation `ConsoleWidget.onEdgeRequest` attaches to the history
promise, applied to the resolved value (`none` models a missing value). -/
def onEdgeReply (location : EdgeLocation) (value : Option String)
    (doc : EditorDoc) : EditorDoc :=
  match location with
  | EdgeLocation.top =>
    match value with
    | none => doc
    | some v => if v.isEmpty then doc else { content := v, cursor := 0 }
  | EdgeLocation.bottom =>
    let text := value.getD ""
    { content := text, cursor := text.length }

end ConsoleWidget

/-! ## Operation sequences and the layout invariant -/

/-- The operations claim C7 ranges over: `newPrompt()`, `clear()` and a
completed `execute()` with its backend outcome. -/
inductive Op where
  | newPrompt
  | clear
  | execute (outcome : Bool)
deriving DecidableEq, Repr

/-- Run one operation on the console state. -/
def applyOp (s : ConsoleState) : Op → ConsoleState
  | Op.newPrompt => ConsoleWidget.newPrompt s
  | Op.clear => ConsoleWidget.clear s
  | Op.execute outcome => ConsoleWidget.execute s outcome

/-- Run a sequence of operations from the constructor state. -/
def runOps (ops : List Op) : ConsoleState :=
  ops.foldl applyOp ConsoleWidget.initialState

/-- The console-layout invariant: the banner first, then read-only cells,
then a single editable live cell last. -/
def promptInv (cells : List Cell) : Prop :=
  ∃ front live, cells = ConsoleWidget.bannerCell :: front ++ [live] ∧
    (∀ c ∈ front, c.readOnly = true) ∧ live.readOnly = false

/-- Spec-side reading of §4.5: the committed entries are the cells strictly
between the banner (index 0) and the live prompt (the last cell). -/
def committedEntries (s : ConsoleState) : List Cell :=
  (s.cells.drop 1).dropLast

/-! ## Concrete states used by witnesses and counterexamples -/

/-- A console state after two completion and two inspect requests have been
issued, none of the replies applied yet. -/
def twoIssuedState : ConsoleState :=
  { pendingComplete := 2, pendingInspect := 2 }

/-- The completion request captured by an older in-flight query. -/
def requestA : ICompletionRequest :=
  { currentValue := "ab", line := 0, ch := 2 }

/-- A later completion request. -/
def requestB : ICompletionRequest :=
  { currentValue := "cd", line := 0, ch := 2 }

/-- A successful completion reply. -/
def replyA : ICompleteReply :=
  { status := Status.ok, «matches» := ["abs"], cursor_start := 0,
    cursor_end := 2 }

/-- A successful, positive inspect reply. -/
def foundReply : IInspectReply :=
  { status := Status.ok, found := true, data := { textPlain := some "sig" } }

/-- A console state whose completion model was disposed while a completion
request (sequence number 1) was in flight. -/
def disposedModelState : ConsoleState :=
  { model := { original := some requestA, isDisposed := true },
    pendingComplete := 1 }

/-- A state with a populated completion model and a visible tooltip. -/
def populatedState : ConsoleState :=
  { model := { options := some ["abs", "abort"],
               original := some requestA,
               cursor := some { start := 0, stop := 2 } },
    tooltipVisible := true }

/-- A text change whose final typed character is a space. -/
def spaceChange : ITextChange := { newValue := "ab ", line := 0, ch := 3 }

/-- A bundle with a present-but-empty console-text entry. -/
def emptyConsoleBundle : MimeBundle :=
  { consoleText := some "", textPlain := some "hello" }

/-- A bundle with a present, non-empty console-text entry. -/
def fullConsoleBundle : MimeBundle :=
  { consoleText := some "doc", textPlain := some "hello" }

/-- The state after one execution: banner, one committed cell, live prompt. -/
def oneCommittedState : ConsoleState :=
  ConsoleWidget.execute ConsoleWidget.initialState true

/-- The state after two executions: banner, two committed cells, live
prompt. -/
def twoCommittedState : ConsoleState :=
  ConsoleWidget.execute oneCommittedState true

/-- The committed form of an executed empty prompt. -/
def executedCell : Cell := { readOnly := true, trusted := true }

/-- An already-disposed console state. -/
def disposedState : ConsoleState := { isDisposed := true }

/-! ## Helper lemmas -/

/-- `modifyLast` rewrites only the final element. -/
theorem modifyLast_append_singleton (f : Cell → Cell) :
    ∀ (front : List Cell) (live : Cell),
      modifyLast f (front ++ [live]) = front ++ [f live]
  | [], live => rfl
  | c :: front', live => by
    cases front' with
    | nil => rfl
    | cons d t =>
      have ih := modifyLast_append_singleton f (d :: t) live
      show c :: modifyLast f ((d :: t) ++ [live]) = c :: ((d :: t) ++ [f live])
      rw [ih]

/-- `modifyLast` maps `getLast?` through `f`. -/
theorem getLast?_modifyLast (f : Cell → Cell) :
    ∀ l : List Cell, (modifyLast f l).getLast? = l.getLast?.map f
  | [] => rfl
  | [c] => rfl
  | c :: d :: t => by
    have ih := getLast?_modifyLast f (d :: t)
    have hne : modifyLast f (d :: t) ≠ [] := by
      cases t <;> simp [modifyLast]
    show (c :: modifyLast f (d :: t)).getLast? = (c :: d :: t).getLast?.map f
    cases ht : modifyLast f (d :: t) with
    | nil => exact absurd ht hne
    | cons x xs =>
      rw [ht] at ih
      rw [List.getLast?_cons_cons, List.getLast?_cons_cons]
      exact ih

/-- The dispose loop of `clear()` removes only cells strictly between the
banner and the live prompt: it preserves the layout invariant. -/
theorem clearLoop_promptInv (cells : List Cell) (i : Nat)
    (h : promptInv cells) : promptInv (ConsoleWidget.clearLoop cells i) := by
  rw [ConsoleWidget.clearLoop.eq_def]
  split
  next hlt =>
    obtain ⟨front, live, hcells, hfront, hlive⟩ := h
    have hflen : front ≠ [] := by
      intro hnil
      rw [hcells, hnil] at hlt
      simp at hlt
    obtain ⟨a, front', rfl⟩ : ∃ a front', front = a :: front' := by
      cases front with
      | nil => exact absurd rfl hflen
      | cons a t => exact ⟨a, t, rfl⟩
    have herase : cells.eraseIdx 1 =
        ConsoleWidget.bannerCell :: front' ++ [live] := by
      rw [hcells]
      rfl
    exact clearLoop_promptInv (cells.eraseIdx 1) (i + 1)
      ⟨front', live, herase,
       fun c hc => hfront c (List.mem_cons_of_mem a hc), hlive⟩
  next => exact h
termination_by cells.length
decreasing_by
  have hlen : 1 < cells.length := by omega
  have h1 := List.length_eraseIdx_add_one hlen
  omega

/-- `newPrompt()` commits the previous live entry and appends a fresh
editable prompt: it preserves the layout invariant. -/
theorem newPrompt_promptInv (s : ConsoleState) (h : promptInv s.cells) :
    promptInv (ConsoleWidget.newPrompt s).cells := by
  obtain ⟨front, live, hcells, hfront, hlive⟩ := h
  refine ⟨front ++ [{ live with readOnly := true }],
    ConsoleWidget.freshPrompt s.mimetype, ?_, ?_, rfl⟩
  · show modifyLast (fun c => { c with readOnly := true }) s.cells ++
        [ConsoleWidget.freshPrompt s.mimetype] = _
    rw [hcells]
    rw [show ConsoleWidget.bannerCell :: front ++ [live] =
        (ConsoleWidget.bannerCell :: front) ++ [live] from rfl]
    rw [modifyLast_append_singleton]
    simp
  · intro c hc
    rcases List.mem_append.mp hc with h1 | h2
    · exact hfront c h1
    · rw [List.mem_singleton.mp h2]

/-- Rewriting the last cell with a readOnly-preserving function (marking it
trusted during `execute()`) preserves the layout invariant. -/
theorem modifyLast_promptInv (f : Cell → Cell)
    (hro : ∀ c, (f c).readOnly = c.readOnly) (cells : List Cell)
    (h : promptInv cells) : promptInv (modifyLast f cells) := by
  obtain ⟨front, live, hcells, hfront, hlive⟩ := h
  refine ⟨front, f live, ?_, hfront, by rw [hro]; exact hlive⟩
  rw [hcells]
  rw [show ConsoleWidget.bannerCell :: front ++ [live] =
      (ConsoleWidget.bannerCell :: front) ++ [live] from rfl]
  rw [modifyLast_append_singleton]

/-- Each console operation preserves the layout invariant. -/
theorem applyOp_promptInv (s : ConsoleState) (op : Op)
    (h : promptInv s.cells) : promptInv (applyOp s op).cells := by
  cases op with
  | newPrompt => exact newPrompt_promptInv s h
  | clear => exact newPrompt_promptInv _ (clearLoop_promptInv s.cells 0 h)
  | execute outcome =>
    cases outcome with
    | false =>
      exact newPrompt_promptInv _
        (modifyLast_promptInv (fun c => { c with trusted := true })
          (fun c => rfl) s.cells h)
    | true =>
      exact newPrompt_promptInv _
        (modifyLast_promptInv (fun c => { c with trusted := true })
          (fun c => rfl) s.cells h)

/-- The constructor state satisfies the layout invariant. -/
theorem initialState_promptInv : promptInv ConsoleWidget.initialState.cells :=
  ⟨[], ConsoleWidget.freshPrompt "text/x-ipython", by decide, by simp, rfl⟩

/-- The layout invariant is preserved along any operation sequence. -/
theorem foldl_promptInv (ops : List Op) :
    ∀ s : ConsoleState, promptInv s.cells →
      promptInv (ops.foldl applyOp s).cells := by
  induction ops with
  | nil => intro s hs; exact hs
  | cons op rest ih =>
    intro s hs
    exact ih (applyOp s op) (applyOp_promptInv s op hs)

/-- A stale inspect reply (captured sequence number differs from the latest
issued) changes nothing. -/
theorem onInspectReply_stale (s : ConsoleState) (captured : Nat)
    (v : IInspectReply) (h : captured ≠ s.pendingInspect) :
    ConsoleWidget.onInspectReply s captured v = s := by
  unfold ConsoleWidget.onInspectReply
  by_cases hd : s.isDisposed <;> simp [hd, h]

/-- The inspect continuation never changes the arbiter counter or the
disposal flag. -/
theorem onInspectReply_preserves (s : ConsoleState) (captured : Nat)
    (v : IInspectReply) :
    (ConsoleWidget.onInspectReply s captured v).pendingInspect =
      s.pendingInspect ∧
    (ConsoleWidget.onInspectReply s captured v).isDisposed = s.isDisposed := by
  unfold ConsoleWidget.onInspectReply ConsoleWidget.showTooltip
  by_cases h1 : s.isDisposed <;>
    by_cases h2 : captured = s.pendingInspect <;>
    by_cases h3 : v.status ≠ Status.ok ∨ v.found = false <;>
    simp [h1, h2, h3]

/-- For a pair of inspect replies where the first one's captured number is
stale, either delivery order produces exactly the latest reply's effect. -/
theorem onInspectReply_pair (s : ConsoleState) (c1 c2 : Nat)
    (v1 v2 : IInspectReply) (h1 : c1 ≠ s.pendingInspect) :
    ConsoleWidget.onInspectReply (ConsoleWidget.onInspectReply s c1 v1) c2 v2 =
      ConsoleWidget.onInspectReply s c2 v2 ∧
    ConsoleWidget.onInspectReply (ConsoleWidget.onInspectReply s c2 v2) c1 v1 =
      ConsoleWidget.onInspectReply s c2 v2 := by
  constructor
  · rw [onInspectReply_stale s c1 v1 h1]
  · apply onInspectReply_stale
    rw [(onInspectReply_preserves s c2 v2).1]
    exact h1

/-! ## Claims -/

/-- Claim C6: when the character immediately before the cursor is absent or
whitespace, the text-change handler hides the tooltip and clears `options`,
`original` and `cursor` in the same invocation — even if the completion
state was populated — and issues no new completion or introspection request
(the pending counters are untouched and the issued flag is `false`). -/
theorem C6_onTextChange_whitespace (s : ConsoleState) (change : ITextChange)
    (_hline : change.line < (ConsoleWidget.splitLines change.newValue).length)
    (h : ConsoleWidget.charBefore?
          (ConsoleWidget.lineOf change.newValue change.line) change.ch =
        none ∨
      ∃ c, ConsoleWidget.charBefore?
            (ConsoleWidget.lineOf change.newValue change.line) change.ch =
          some c ∧ ConsoleWidget.jsNonSpace c = false) :
    ConsoleWidget.onTextChange s change =
      ({ s with tooltipVisible := false,
                model := { s.model with options := none, original := none,
                                        cursor := none } }, false) := by
  unfold ConsoleWidget.onTextChange
  rcases h with h | ⟨c, hc, hns⟩
  · simp [h]
  · simp [hc, hns, Option.any]

/-- Claim C6 witness: the whitespace-clearing theorem applied to a populated
completion state and a text change whose final character is a space. -/
theorem C6_onTextChange_whitespace_witness :
    spaceChange.line < (ConsoleWidget.splitLines spaceChange.newValue).length ∧
    ConsoleWidget.jsNonSpace ' ' = false ∧
    ConsoleWidget.onTextChange populatedState spaceChange =
      ({ populatedState with
          tooltipVisible := false,
          model := { populatedState.model with
                     options := none,
                     original := none, cursor := none } }, false) :=
  ⟨by decide, rfl,
   C6_onTextChange_whitespace populatedState spaceChange (by decide)
     (Or.inr ⟨' ', by decide, rfl⟩)⟩

/-- Claim C8 counterexample: a console-text entry that is present but empty
is overwritten by the plain-text entry — contradicting "the console-text
entry equals the pre-existing console-text entry if one was present (never
overwritten)". -/
theorem C8_counterexample :
    emptyConsoleBundle.consoleText = some "" ∧
    (Private.processInspectReply emptyConsoleBundle).consoleText =
      some "hello" := by
  decide

/-- Claim C8 amended: the normalization keeps a present console-text entry
when it is truthy (non-empty); an absent or empty console-text entry is
replaced by the plain-text entry verbatim; every other entry is untouched;
and applying the normalization twice equals applying it once. -/
theorem C8_processInspectReply_amended (b : MimeBundle) :
    (Private.jsTruthy b.consoleText = true →
      (Private.processInspectReply b).consoleText = b.consoleText) ∧
    (Private.jsTruthy b.consoleText = false →
      (Private.processInspectReply b).consoleText = b.textPlain) ∧
    (Private.processInspectReply b).textPlain = b.textPlain ∧
    (Private.processInspectReply b).rest = b.rest ∧
    Private.processInspectReply (Private.processInspectReply b) =
      Private.processInspectReply b := by
  refine ⟨?_, ?_, rfl, rfl, ?_⟩
  · intro h
    simp [Private.processInspectReply, Private.jsOr, h]
  · intro h
    simp [Private.processInspectReply, Private.jsOr, h]
  · by_cases h : Private.jsTruthy b.consoleText <;>
      simp [Private.processInspectReply, Private.jsOr, h]

/-- Claim C8 amended witness: both branches of the normalization evaluated
at concrete bundles. -/
theorem C8_processInspectReply_amended_witness :
    (Private.jsTruthy fullConsoleBundle.consoleText = true ∧
      (Private.processInspectReply fullConsoleBundle).consoleText =
        fullConsoleBundle.consoleText) ∧
    (Private.jsTruthy emptyConsoleBundle.consoleText = false ∧
      (Private.processInspectReply emptyConsoleBundle).consoleText =
        emptyConsoleBundle.textPlain) :=
  ⟨⟨rfl, (C8_processInspectReply_amended fullConsoleBundle).1 rfl⟩,
   ⟨rfl, (C8_processInspectReply_amended emptyConsoleBundle).2.1 rfl⟩⟩

/-- Claim C9: a 'top' edge event triggers history `back()` and, when the
recalled value is non-empty, replaces the buffer content with it, cursor at
offset 0, while an empty or missing value leaves the document unchanged; a
'bottom' edge event triggers history `forward()` and replaces the buffer
with the returned value (or the empty string at the present boundary),
cursor at the end of the new content. -/
theorem C9_onEdgeRequest (doc : ConsoleWidget.EditorDoc)
    (v : Option String) (s : String) :
    (ConsoleWidget.historyCallOf ConsoleWidget.EdgeLocation.top =
        ConsoleWidget.HistoryOp.back ∧
      ConsoleWidget.historyCallOf ConsoleWidget.EdgeLocation.bottom =
        ConsoleWidget.HistoryOp.forward) ∧
    (v = none ∨ v = some "" →
      ConsoleWidget.onEdgeReply ConsoleWidget.EdgeLocation.top v doc = doc) ∧
    (v = some s → s ≠ "" →
      ConsoleWidget.onEdgeReply ConsoleWidget.EdgeLocation.top v doc =
        { content := s, cursor := 0 }) ∧
    ConsoleWidget.onEdgeReply ConsoleWidget.EdgeLocation.bottom v doc =
      { content := v.getD "", cursor := (v.getD "").length } := by
  refine ⟨⟨rfl, rfl⟩, ?_, ?_, ?_⟩
  · rintro (rfl | rfl)
    · rfl
    · rfl
  · rintro rfl hs
    simp [ConsoleWidget.onEdgeReply, String.isEmpty_iff, hs]
  · cases v <;> rfl

/-- Claim C9 witness: both edge branches evaluated at concrete values. -/
theorem C9_onEdgeRequest_witness :
    ConsoleWidget.onEdgeReply ConsoleWidget.EdgeLocation.top
        (some "recalled") { content := "x", cursor := 1 } =
      { content := "recalled", cursor := 0 } ∧
    ConsoleWidget.onEdgeReply ConsoleWidget.EdgeLocation.top none
        { content := "x", cursor := 1 } = { content := "x", cursor := 1 } ∧
    ConsoleWidget.onEdgeReply ConsoleWidget.EdgeLocation.bottom none
        { content := "x", cursor := 1 } =
      { content := (none : Option String).getD "",
        cursor := ((none : Option String).getD "").length } :=
  ⟨(C9_onEdgeRequest { content := "x", cursor := 1 } (some "recalled")
      "recalled").2.2.1 rfl (by decide),
   (C9_onEdgeRequest { content := "x", cursor := 1 } none "recalled").2.1
     (Or.inl rfl),
   (C9_onEdgeRequest { content := "x", cursor := 1 } none "recalled").2.2.2⟩

/-- Claim C10: `dispose()` on an already-disposed console session is a
no-op, and disposing twice yields the same state as disposing once. -/
theorem C10_dispose_idempotent (s : ConsoleState) :
    ConsoleWidget.dispose (ConsoleWidget.dispose s) =
      ConsoleWidget.dispose s ∧
    (s.isDisposed = true → ConsoleWidget.dispose s = s) := by
  constructor
  · by_cases h : s.isDisposed <;> simp [ConsoleWidget.dispose, h]
  · intro h
    simp [ConsoleWidget.dispose, h]

/-- Claim C10 witness: the idempotence theorem applied to a concrete
already-disposed state. -/
theorem C10_dispose_idempotent_witness :
    ConsoleWidget.dispose (ConsoleWidget.dispose disposedState) =
      ConsoleWidget.dispose disposedState ∧
    disposedState.isDisposed = true ∧
    ConsoleWidget.dispose disposedState = disposedState :=
  ⟨(C10_dispose_idempotent disposedState).1, rfl,
   (C10_dispose_idempotent disposedState).2 rfl⟩

/-- Claim C1 counterexample: with two completion queries issued (latest
counter 2), the reply captured at sequence number 1 is stale, yet it still
changes state — its second chained continuation overwrites
`model.original`. -/
theorem C1_counterexample :
    (1 : Nat) ≠ twoIssuedState.pendingComplete ∧
    ConsoleWidget.onCompleteReply twoIssuedState 1 requestA replyA ≠
      twoIssuedState := by
  decide

/-- Claim C1 amended: for introspection queries, only the reply whose
captured sequence number equals the latest-issued counter at reply time is
applied, and in a pair of issued queries either arrival order delivers
exactly the latest reply's effect once, the stale reply changing nothing.
For completion queries the same holds for the `options` and `cursor`
fields, but every completion reply — stale or not — additionally overwrites
`model.original` with its own request snapshot. -/
theorem C1_arbiter_amended (s : ConsoleState) (captured : Nat)
    (change : ICompletionRequest) (vi : IInspectReply) (vc : ICompleteReply) :
    (captured ≠ s.pendingInspect →
      ConsoleWidget.onInspectReply s captured vi = s) ∧
    (s.isDisposed = false → captured = s.pendingInspect →
      vi.status = Status.ok → vi.found = true →
      ConsoleWidget.onInspectReply s captured vi =
        ConsoleWidget.showTooltip s (Private.processInspectReply vi.data)) ∧
    (captured ≠ s.pendingComplete →
      (ConsoleWidget.onCompleteReply s captured change vc).model.options =
          s.model.options ∧
        (ConsoleWidget.onCompleteReply s captured change vc).model.cursor =
          s.model.cursor ∧
        (ConsoleWidget.onCompleteReply s captured change vc).model.original =
          some change) ∧
    (∀ v1 v2 : IInspectReply,
      ConsoleWidget.onInspectReply
          (ConsoleWidget.onInspectReply
            (ConsoleWidget.issueInspect (ConsoleWidget.issueInspect s).1).1
            (ConsoleWidget.issueInspect s).2 v1)
          (ConsoleWidget.issueInspect (ConsoleWidget.issueInspect s).1).2 v2 =
        ConsoleWidget.onInspectReply
          (ConsoleWidget.issueInspect (ConsoleWidget.issueInspect s).1).1
          (ConsoleWidget.issueInspect (ConsoleWidget.issueInspect s).1).2 v2 ∧
      ConsoleWidget.onInspectReply
          (ConsoleWidget.onInspectReply
            (ConsoleWidget.issueInspect (ConsoleWidget.issueInspect s).1).1
            (ConsoleWidget.issueInspect (ConsoleWidget.issueInspect s).1).2 v2)
          (ConsoleWidget.issueInspect s).2 v1 =
        ConsoleWidget.onInspectReply
          (ConsoleWidget.issueInspect (ConsoleWidget.issueInspect s).1).1
          (ConsoleWidget.issueInspect (ConsoleWidget.issueInspect s).1).2 v2) := by
  refine ⟨?_, ?_, ?_, ?_⟩
  · intro h
    exact onInspectReply_stale s captured vi h
  · intro h1 h2 h3 h4
    unfold ConsoleWidget.onInspectReply
    simp [h1, h2, h3, h4]
  · intro h
    unfold ConsoleWidget.onCompleteReply
    by_cases hd : s.model.isDisposed <;> simp [hd, h]
  · intro v1 v2
    apply onInspectReply_pair
    simp only [ConsoleWidget.issueInspect]
    omega

/-- Claim C1 amended witness: the arbiter theorem evaluated at a concrete
state with two issued queries of each kind. -/
theorem C1_arbiter_amended_witness :
    ConsoleWidget.onInspectReply twoIssuedState 1 foundReply =
      twoIssuedState ∧
    ((ConsoleWidget.onCompleteReply twoIssuedState 1 requestA
          replyA).model.options = twoIssuedState.model.options ∧
      (ConsoleWidget.onCompleteReply twoIssuedState 1 requestA
          replyA).model.cursor = twoIssuedState.model.cursor ∧
      (ConsoleWidget.onCompleteReply twoIssuedState 1 requestA
          replyA).model.original = some requestA) ∧
    ConsoleWidget.onInspectReply twoIssuedState 2 foundReply =
      ConsoleWidget.showTooltip twoIssuedState
        (Private.processInspectReply foundReply.data) :=
  ⟨(C1_arbiter_amended twoIssuedState 1 requestA foundReply replyA).1
     (by decide),
   (C1_arbiter_amended twoIssuedState 1 requestA foundReply replyA).2.2.1
     (by decide),
   (C1_arbiter_amended twoIssuedState 2 requestA foundReply replyA).2.1
     rfl rfl rfl rfl⟩

/-- Claim C2 counterexample: a completion reply arriving after the
completion model is disposed still mutates the completion state — the
second chained continuation overwrites `original`. -/
theorem C2_counterexample :
    disposedModelState.model.isDisposed = true ∧
    (ConsoleWidget.onCompleteReply disposedModelState 1 requestB
        replyA).model.original ≠ disposedModelState.model.original := by
  decide

/-- Claim C2 amended: for every completion reply that is rejected
(status ≠ ok), arbiter-discarded, or arrives after the completion model is
disposed, the candidate list (`options`), the cursor range and the
`current` snapshot are left exactly as before, but the `original` snapshot
is unconditionally overwritten with the reply's triggering request. -/
theorem C2_completion_reply_amended (s : ConsoleState) (captured : Nat)
    (change : ICompletionRequest) (value : ICompleteReply)
    (h : s.model.isDisposed = true ∨ captured ≠ s.pendingComplete ∨
      value.status ≠ Status.ok) :
    (ConsoleWidget.onCompleteReply s captured change value).model.options =
      s.model.options ∧
    (ConsoleWidget.onCompleteReply s captured change value).model.cursor =
      s.model.cursor ∧
    (ConsoleWidget.onCompleteReply s captured change value).model.current =
      s.model.current ∧
    (ConsoleWidget.onCompleteReply s captured change value).model.original =
      some change := by
  unfold ConsoleWidget.onCompleteReply
  rcases h with h | h | h
  · simp [h]
  · by_cases hd : s.model.isDisposed <;> simp [hd, h]
  · by_cases hd : s.model.isDisposed <;>
      by_cases hc : captured = s.pendingComplete <;> simp [hd, hc, h]

/-- Claim C2 amended witness: the theorem applied to a disposed model
receiving a successful reply captured at the latest sequence number. -/
theorem C2_completion_reply_amended_witness :
    disposedModelState.model.isDisposed = true ∧
    ((ConsoleWidget.onCompleteReply disposedModelState 1 requestB
          replyA).model.options = disposedModelState.model.options ∧
      (ConsoleWidget.onCompleteReply disposedModelState 1 requestB
          replyA).model.cursor = disposedModelState.model.cursor ∧
      (ConsoleWidget.onCompleteReply disposedModelState 1 requestB
          replyA).model.current = disposedModelState.model.current ∧
      (ConsoleWidget.onCompleteReply disposedModelState 1 requestB
          replyA).model.original = some requestB) :=
  ⟨rfl, C2_completion_reply_amended disposedModelState 1 requestB replyA
    (Or.inl rfl)⟩

/-- Claim C3 counterexample: in a state with exactly one committed entry,
`serialize()` returns two records, not the committed entry's record alone —
it includes the still-live prompt's record. -/
theorem C3_counterexample :
    (committedEntries oneCommittedState).length = 1 ∧
    (ConsoleWidget.serialize oneCommittedState).length = 2 ∧
    ConsoleWidget.serialize oneCommittedState ≠
      (committedEntries oneCommittedState).map Cell.toJSON := by
  decide

/-- Claim C3 amended: for every console state shaped banner, committed
entries, live prompt, `serialize()` returns the committed entries' records
in order followed by the live entry's record — it excludes only the banner
(and, being a pure function of the state, mutates nothing). -/
theorem C3_serialize_amended (s : ConsoleState) (front : List Cell)
    (live : Cell)
    (h : s.cells = ConsoleWidget.bannerCell :: front ++ [live]) :
    ConsoleWidget.serialize s =
      (committedEntries s).map Cell.toJSON ++ [Cell.toJSON live] ∧
    committedEntries s = front := by
  have hc : committedEntries s = front := by
    unfold committedEntries
    rw [h]
    simp [List.dropLast_concat]
  refine ⟨?_, hc⟩
  unfold ConsoleWidget.serialize
  rw [h, hc]
  simp

/-- Claim C3 amended witness: the serialize characterization at the
concrete one-committed-entry state. -/
theorem C3_serialize_amended_witness :
    oneCommittedState.cells =
      ConsoleWidget.bannerCell :: [executedCell] ++
        [ConsoleWidget.freshPrompt "text/x-ipython"] ∧
    (ConsoleWidget.serialize oneCommittedState =
        (committedEntries oneCommittedState).map Cell.toJSON ++
          [Cell.toJSON (ConsoleWidget.freshPrompt "text/x-ipython")] ∧
      committedEntries oneCommittedState = [executedCell]) :=
  ⟨by decide,
   C3_serialize_amended oneCommittedState [executedCell]
     (ConsoleWidget.freshPrompt "text/x-ipython") (by decide)⟩

/-- Claim C4 (code bug): in a state with two committed entries, `clear()`
removes only one of them — the dispose loop's bound `childCount() - 2` is
re-evaluated while disposal shrinks the child list — so the resulting
layout still holds a pre-clear committed entry at index 1, and has 4 cells
where the claim requires 3 (banner, previous live entry now committed,
fresh prompt). -/
theorem C4_clear_leaves_committed :
    twoCommittedState.cells.length = 4 ∧
    (ConsoleWidget.clear twoCommittedState).cells.length = 4 ∧
    (ConsoleWidget.clear twoCommittedState).cells[1]? = some executedCell ∧
    executedCell.isBanner = false ∧ executedCell.readOnly = true := by
  have h1 : ConsoleWidget.clearLoop twoCommittedState.cells 0 =
      [ConsoleWidget.bannerCell, executedCell,
       ConsoleWidget.freshPrompt "text/x-ipython"] := by
    have h0 : twoCommittedState.cells =
        [ConsoleWidget.bannerCell, executedCell, executedCell,
         ConsoleWidget.freshPrompt "text/x-ipython"] := by decide
    rw [h0]
    simp [ConsoleWidget.clearLoop, List.eraseIdx]
  have h2 : ConsoleWidget.clear twoCommittedState =
      ConsoleWidget.newPrompt { twoCommittedState with
        cells := [ConsoleWidget.bannerCell, executedCell,
                  ConsoleWidget.freshPrompt "text/x-ipython"] } := by
    unfold ConsoleWidget.clear
    rw [h1]
  refine ⟨by decide, ?_, ?_, by decide, by decide⟩
  · rw [h2]
    decide
  · rw [h2]
    decide

/-- Claim C5: `execute()` pushes the live entry's text to the history
buffer, its result does not depend on the backend outcome (success and
failure trigger the same continuation, so `newPrompt()` always runs), and
afterwards the executed entry is committed — read-only and trusted, its
text preserved — while a fresh editable entry is last. -/
theorem C5_execute (s : ConsoleState) (outcome : Bool) (h : s.cells ≠ []) :
    (ConsoleWidget.execute s outcome).history =
      s.history ++ [lastSource s.cells] ∧
    ConsoleWidget.execute s outcome = ConsoleWidget.execute s (!outcome) ∧
    ∃ front fresh,
      (ConsoleWidget.execute s outcome).cells = front ++ [fresh] ∧
      fresh.readOnly = false ∧
      front.getLast?.map (fun c => (c.readOnly, c.trusted, c.source)) =
        some (true, true, lastSource s.cells) := by
  obtain ⟨c0, hc0⟩ : ∃ c0, s.cells.getLast? = some c0 := by
    cases hl : s.cells.getLast? with
    | none => exact absurd (List.getLast?_eq_none_iff.mp hl) h
    | some c => exact ⟨c, rfl⟩
  have hexec : ConsoleWidget.execute s outcome = ConsoleWidget.newPrompt
      { s with
        cells := modifyLast (fun c => { c with trusted := true }) s.cells,
        history := s.history ++ [lastSource s.cells] } := by
    cases outcome <;> rfl
  refine ⟨?_, ?_, ?_⟩
  · rw [hexec]
    rfl
  · cases outcome <;> rfl
  · rw [hexec]
    refine ⟨modifyLast (fun c => { c with readOnly := true })
        (modifyLast (fun c => { c with trusted := true }) s.cells),
      ConsoleWidget.freshPrompt s.mimetype, rfl, rfl, ?_⟩
    rw [getLast?_modifyLast, getLast?_modifyLast, hc0]
    simp [lastSource, hc0]

/-- Claim C5 witness: the execute theorem applied at the constructor state
with a successful backend outcome. -/
theorem C5_execute_witness :
    ConsoleWidget.initialState.cells ≠ [] ∧
    ((ConsoleWidget.execute ConsoleWidget.initialState true).history =
        ConsoleWidget.initialState.history ++
          [lastSource ConsoleWidget.initialState.cells] ∧
      ConsoleWidget.execute ConsoleWidget.initialState true =
        ConsoleWidget.execute ConsoleWidget.initialState (!true) ∧
      ∃ front fresh,
        (ConsoleWidget.execute ConsoleWidget.initialState true).cells =
          front ++ [fresh] ∧
        fresh.readOnly = false ∧
        front.getLast?.map (fun c => (c.readOnly, c.trusted, c.source)) =
          some (true, true, lastSource ConsoleWidget.initialState.cells)) :=
  ⟨by decide, C5_execute ConsoleWidget.initialState true (by decide)⟩

/-- Claim C7: after construction and any finite sequence of `newPrompt()`,
`clear()` and completed `execute()` operations, the layout is the banner
followed by read-only cells with a single editable live cell last: exactly
one cell has read-only = false, it is the last one, and every cell before
it — the banner first among them — is read-only. -/
theorem C7_live_entry_invariant (ops : List Op) :
    ∃ front live,
      (runOps ops).cells = ConsoleWidget.bannerCell :: front ++ [live] ∧
      live.readOnly = false ∧
      (∀ c ∈ ConsoleWidget.bannerCell :: front, c.readOnly = true) ∧
      (runOps ops).cells.countP (fun c => c.readOnly == false) = 1 := by
  obtain ⟨front, live, hcells, hfront, hlive⟩ :=
    foldl_promptInv ops ConsoleWidget.initialState initialState_promptInv
  refine ⟨front, live, hcells, hlive, ?_, ?_⟩
  · intro c hc
    rcases List.mem_cons.mp hc with rfl | hmem
    · rfl
    · exact hfront c hmem
  · rw [show (runOps ops).cells = ConsoleWidget.bannerCell :: front ++ [live]
        from hcells]
    have h0 : front.countP (fun c => c.readOnly == false) = 0 :=
      List.countP_eq_zero.mpr (fun c hcmem => by simp [hfront c hcmem])
    rw [show ConsoleWidget.bannerCell :: front ++ [live] =
        (ConsoleWidget.bannerCell :: front) ++ [live] from rfl]
    rw [List.countP_append, List.countP_cons, h0]
    simp [hlive, ConsoleWidget.bannerCell]

end Console
